import Mathlib

/-!
Verification development for the AI Poker Battle orchestrator
(`poker_battle.py`).

The Python source is shallowly embedded as executable Lean definitions.
Python integers are modelled as `Int` (or `Nat` for counters that are
provably non-negative), Python floats used by the equity estimator as `ℚ`,
Python strings as `String` (logically a list of `Char`), and fallible
external collaborators (the PyPokerEngine `HandEvaluator`, the random
sampler, the rules engine `start_poker`) as oracle parameters returning
`Except`/`Option` values.  Logging (`add_log`) and wall-clock waiting
(`time.sleep`) have no effect on the tracked state and are omitted.
-/

namespace PokerBattle

/-! ## String helpers (Python `in`, `.lower()`, `.strip()`, `re.findall`) -/

/-- Whether `pat` occurs at the head of `s` (helper for substring search). -/
def matchesFrom : List Char → List Char → Bool
  | [], _ => true
  | _ :: _, [] => false
  | p :: ps, c :: cs => p == c && matchesFrom ps cs

/-- Whether `pat` occurs contiguously anywhere in `s`; this is Python's
substring operator for strings viewed as character lists. -/
def occursIn (pat : List Char) : List Char → Bool
  | [] => matchesFrom pat []
  | c :: cs => matchesFrom pat (c :: cs) || occursIn pat cs

/-- Python `pat in s` on strings. -/
def strContains (s pat : String) : Bool := occursIn pat.data s.data

/-- Python `s.lower()` (the keywords scanned by the source are ASCII). -/
def lowerStr (s : String) : String := ⟨s.data.map Char.toLower⟩

/-- Python `s.strip()`: drop whitespace from both ends. -/
def stripStr (s : String) : String :=
  ⟨((s.data.dropWhile Char.isWhitespace).reverse.dropWhile Char.isWhitespace).reverse⟩

/-- Python `s.upper()`. -/
def upperStr (s : String) : String := ⟨s.data.map Char.toUpper⟩

/-- Numeric value of a list of decimal digit characters. -/
def digitsVal (l : List Char) : Nat :=
  l.foldl (fun acc c => acc * 10 + (c.toNat - 48)) 0

/-- Python `re.findall` of one-or-more digits followed by `int(numbers[0])`:
the value of the first maximal run of decimal digits, if any. -/
def firstNumber : List Char → Option Nat
  | [] => none
  | c :: cs =>
    if c.isDigit then some (digitsVal (c :: cs.takeWhile Char.isDigit))
    else firstNumber cs

/-! ## `parse_ai_decision` (source lines 245-263) -/

/-- Embedding of `parse_ai_decision`: lowercase and strip the response, then
scan for keywords in the source's fixed `if`/`elif` order. -/
def parse_ai_decision (responseText : String) : String × Int :=
  let t := stripStr (lowerStr responseText)
  if strContains t "fold" then ("fold", 0)
  else if strContains t "call" then ("call", 0)
  else if strContains t "raise" || strContains t "bet" then
    match firstNumber t.data with
    | some amount => ("raise", (amount : Int))
    | none => ("raise", 20)
  else ("call", 0)

/-! ## Action resolution and raise clamping (source lines 396-474) -/

/-- The `amount` payload of a PyPokerEngine valid-action entry: `fold`/`call`
entries carry a plain integer, `raise` entries carry a `{min, max}` table
whose keys are read with `.get('min', 20)` / `.get('max', my_stack)`. -/
inductive ActionAmount where
  | fixed : Int → ActionAmount
  | range : Option Int → Option Int → ActionAmount
deriving DecidableEq

/-- One entry of the `valid_actions` list supplied by the rules engine. -/
structure ValidAction where
  action : String
  amount : ActionAmount
deriving DecidableEq

/-- The clamping computation of source lines 400-408:
`min_amount = max(20, amount.get('min', 20))`,
`max_amount = amount.get('max', my_stack)`, raise the request to
`min_amount` if below, cap at `max_amount` if above. -/
def clampedRaiseAmount (amount : Int) (mn mx : Option Int) (myStack : Int) : Int :=
  let minAmount := max 20 (mn.getD 20)
  let maxAmount := mx.getD myStack
  let a := if amount < minAmount then minAmount else amount
  if a > maxAmount then maxAmount else a

/-- Embedding of the action-resolution part of `AIPlayer.declare_action`
(source lines 396-474), after the response text has been parsed into
`(actionType, amount)`.  The interleaved `add_log` calls and the
display-only writes to `action_history` / `*_current_action` /
`total_allins` do not affect the returned action and are omitted here;
their net effect on shared state is carried by `EngineResult` below.
A `raise` entry whose `amount` payload is not a `{min, max}` table would
make the Python code raise a `TypeError`, caught by the surrounding
handler which returns `('fold', 0)`. -/
def resolveAction (validActions : List ValidAction) (actionType : String)
    (amount : Int) (myStack : Int) : String × ActionAmount :=
  match validActions.find? (fun a => a.action == actionType) with
  | some a =>
    if actionType = "raise" then
      match a.amount with
      | ActionAmount.range mn mx =>
        let amt := clampedRaiseAmount amount mn mx myStack
        if amt < 0 then ("call", ActionAmount.fixed 0)
        else ("raise", ActionAmount.fixed amt)
      | ActionAmount.fixed _ => ("fold", ActionAmount.fixed 0)
    else (actionType, a.amount)
  | none =>
    if validActions.any (fun a => a.action == "call") then
      ("call", ActionAmount.fixed 0)
    else ("fold", ActionAmount.fixed 0)

/-! ## Card conversion (source lines 154-171 and 655-665) -/

/-- The `rank_map` dictionary, in Python insertion (= iteration) order. -/
def rankMap : List (String × String) :=
  [("A", "A"), ("K", "K"), ("Q", "Q"), ("J", "J"), ("10", "T"),
   ("9", "9"), ("8", "8"), ("7", "7"), ("6", "6"), ("5", "5"),
   ("4", "4"), ("3", "3"), ("2", "2")]

/-- The `suit_map` dictionary, in Python insertion (= iteration) order. -/
def suitMap : List (String × String) :=
  [("♠", "S"), ("♥", "H"), ("♦", "D"), ("♣", "C")]

/-- Embedding of `to_card_obj` (source lines 655-665): scan `rank_map` in
order for a rank symbol occurring in the display string, then scan
`suit_map` for a suit symbol, and return the canonical two-character
`Card.from_str` argument.  A PyPokerEngine `Card` object is represented by
this canonical string (its `str()` form), which is all the source ever
compares. -/
def toCardObj (cardStr : String) : Option String :=
  rankMap.findSome? fun rc =>
    if strContains cardStr rc.1 then
      suitMap.findSome? fun sc =>
        if strContains cardStr sc.1 then some (sc.2 ++ rc.2) else none
    else none

/-- Embedding of `card_to_pypoker_obj` (source lines 154-171): like
`to_card_obj` but first rejecting empty strings and the card-back glyph. -/
def cardToPypokerObj (cardStr : String) : Option String :=
  if cardStr = "" ∨ strContains cardStr "🂠" then none
  else toCardObj cardStr

/-- Embedding of `get_hand_rank_name` (source lines 116-140). -/
def get_hand_rank_name (rank : Int) : String :=
  if rank ≥ 8000000 then "Straight Flush"
  else if rank ≥ 7000000 then "Four of a Kind"
  else if rank ≥ 6000000 then "Full House"
  else if rank ≥ 5000000 then "Flush"
  else if rank ≥ 4000000 then "Straight"
  else if rank ≥ 3000000 then "Three of a Kind"
  else if rank ≥ 2000000 then "Two Pair"
  else if rank ≥ 1000000 then "One Pair"
  else "High Card"

/-! ## Equity estimator: `calculate_win_probabilities` (source lines 143-243)

The external `HandEvaluator.eval_hand` is an oracle
`ev : List String → List String → Except Unit Int` (hole cards, board ↦
hand-rank score, or an exception), and the `i`-th call to
`random.sample(deck, cards_needed)` is an oracle
`sample : Nat → Except Unit (List String)` (an exception models
`ValueError`, e.g. when the requested sample exceeds the deck).  Scores and
the two returned percentages are exact rationals; this embeds the float
arithmetic of the source, whose values on these computations fit exactly
into small rationals, and Python's `round(x, 1)` as rational
half-to-even rounding in the last decimal place. -/

/-- The 52-card universe construction of source lines 188-191. -/
def allCards52 : List String :=
  (["S", "H", "D", "C"].map fun suit =>
    ["A", "K", "Q", "J", "T", "9", "8", "7", "6", "5", "4", "3", "2"].map
      fun rank => suit ++ rank).flatten

/-- Python `round(x)` at integer precision: round half to even. -/
def roundHalfToEven (x : ℚ) : ℤ :=
  if Int.fract x < 1 / 2 then ⌊x⌋
  else if 1 / 2 < Int.fract x then ⌊x⌋ + 1
  else if ⌊x⌋ % 2 = 0 then ⌊x⌋ else ⌊x⌋ + 1

/-- Python `round(x, 1)`. -/
def pyRound1 (x : ℚ) : ℚ := (roundHalfToEven (10 * x) : ℚ) / 10

/-- The Monte Carlo loop of source lines 218-232: run `n` simulations,
tallying `(claude_wins, gpt_wins, ties)`; any exception raised by sampling
or evaluation aborts the loop. -/
def runSims (ev : List String → List String → Except Unit Int)
    (sample : Nat → Except Unit (List String))
    (claudeHole gptHole board : List String) :
    Nat → Except Unit (Nat × Nat × Nat)
  | 0 => Except.ok (0, 0, 0)
  | n + 1 =>
    match runSims ev sample claudeHole gptHole board n with
    | Except.error e => Except.error e
    | Except.ok (cw, gw, t) =>
      match sample n with
      | Except.error e => Except.error e
      | Except.ok remainingCommunity =>
        let fullBoard := board ++ remainingCommunity
        match ev claudeHole fullBoard, ev gptHole fullBoard with
        | Except.ok cs, Except.ok gs =>
          if cs > gs then Except.ok (cw + 1, gw, t)
          else if gs > cs then Except.ok (cw, gw + 1, t)
          else Except.ok (cw, gw, t + 1)
        | Except.error e, _ => Except.error e
        | _, Except.error e => Except.error e

/-- The body of the `try:` block of `calculate_win_probabilities`
(source lines 146-239).  `claude_hole = [f(c) for c in cards]` followed by
`[c for c in claude_hole if c]` is `List.filterMap`. -/
def calcWinProbBody (ev : List String → List String → Except Unit Int)
    (sample : Nat → Except Unit (List String))
    (claudeCards gptCards communityCards : List String) :
    Except Unit (ℚ × ℚ) :=
  if claudeCards = [] ∨ gptCards = [] then Except.ok (50, 50)
  else
    let claudeHole := claudeCards.filterMap cardToPypokerObj
    let gptHole := gptCards.filterMap cardToPypokerObj
    let board := communityCards.filterMap cardToPypokerObj
    if claudeHole.length ≠ 2 ∨ gptHole.length ≠ 2 then Except.ok (50, 50)
    else
      let usedCards := claudeHole ++ gptHole ++ board
      -- the sampling deck fed (through `random.sample`) to the `sample` oracle
      let _deck := allCards52.filter fun c => !(usedCards.contains c)
      let cardsNeeded : Int := 5 - board.length
      if cardsNeeded = 0 then
        match ev claudeHole board, ev gptHole board with
        | Except.ok claudeStrength, Except.ok gptStrength =>
          if claudeStrength > gptStrength then Except.ok (100, 0)
          else if gptStrength > claudeStrength then Except.ok (0, 100)
          else Except.ok (50, 50)
        | Except.error e, _ => Except.error e
        | _, Except.error e => Except.error e
      else
        match runSims ev sample claudeHole gptHole board 500 with
        | Except.error e => Except.error e
        | Except.ok (claudeWins, gptWins, ties) =>
          let total : ℚ := 500
          let claudePercentage := ((claudeWins + ties * (1 / 2 : ℚ)) / total) * 100
          let gptPercentage := ((gptWins + ties * (1 / 2 : ℚ)) / total) * 100
          Except.ok (pyRound1 claudePercentage, pyRound1 gptPercentage)

/-- Embedding of `calculate_win_probabilities`: the `except` handler of
source lines 241-243 turns every internal exception into `(50.0, 50.0)`. -/
def calculate_win_probabilities (ev : List String → List String → Except Unit Int)
    (sample : Nat → Except Unit (List String))
    (claudeCards gptCards communityCards : List String) : ℚ × ℚ :=
  match calcWinProbBody ev sample claudeCards gptCards communityCards with
  | Except.ok p => p
  | Except.error _ => (50, 50)

/-! ## Blind schedule (source lines 536-541) -/

/-- Source: `blind_level = hand_number // 10`. -/
def blindLevel (handNumber : Nat) : Nat := handNumber / 10

/-- Source: `small_blind = 5 + (blind_level * 5)`. -/
def smallBlindAmt (handNumber : Nat) : Nat := 5 + blindLevel handNumber * 5

/-- Source: `big_blind = small_blind * 2`. -/
def bigBlindAmt (handNumber : Nat) : Nat := smallBlindAmt handNumber * 2

/-! ## The shared `game_state` dictionary (source lines 21-63) -/

/-- One entry of `hand_history` (the dict built at source lines 719-727). -/
structure HandRecord where
  hand_number : Nat
  winner : String
  pot : Int
  hand_detail : String
  claude_cards : List String
  gpt_cards : List String
  community_cards : List String
deriving DecidableEq

/-- One entry of `stack_history` (the dict built at source lines 733-737). -/
structure StackPoint where
  hand : Nat
  claude : Int
  gpt : Int
deriving DecidableEq

/-- The `game_state` dictionary.  Win probabilities are rationals (they hold
the exact values produced by the equity estimator model). -/
structure GameState where
  hand_number : Nat
  round : String
  street : String
  pot : Int
  claude_stack : Int
  gpt_stack : Int
  claude_cards : List String
  gpt_cards : List String
  community_cards : List String
  last_action : String
  winner : String
  countdown : Nat
  hand_countdown : Nat
  is_playing : Bool
  wait_for_new_game : Bool
  claude_wins : Nat
  gpt_wins : Nat
  claude_games_won : Nat
  gpt_games_won : Nat
  total_hands : Nat
  biggest_pot : Int
  claude_current_action : String
  gpt_current_action : String
  action_history : List String
  claude_win_probability : ℚ
  gpt_win_probability : ℚ
  claude_is_thinking : Bool
  gpt_is_thinking : Bool
  stack_history : List StackPoint
  total_allins : Nat
  game_pots : List Int
  current_game_hands : Nat
  longest_game : Nat
  shortest_game : Nat
  hand_history : List HandRecord
  claude_streak : Nat
  gpt_streak : Nat
  winning_hand_info : String
  dealer : String
deriving DecidableEq

/-- The initial `game_state` literal of source lines 21-63. -/
def initialGameState : GameState where
  hand_number := 0
  round := "waiting"
  street := "waiting"
  pot := 0
  claude_stack := 1000
  gpt_stack := 1000
  claude_cards := []
  gpt_cards := []
  community_cards := []
  last_action := ""
  winner := ""
  countdown := 60
  hand_countdown := 0
  is_playing := false
  wait_for_new_game := false
  claude_wins := 0
  gpt_wins := 0
  claude_games_won := 0
  gpt_games_won := 0
  total_hands := 0
  biggest_pot := 0
  claude_current_action := ""
  gpt_current_action := ""
  action_history := []
  claude_win_probability := 0
  gpt_win_probability := 0
  claude_is_thinking := false
  gpt_is_thinking := false
  stack_history := []
  total_allins := 0
  game_pots := []
  current_game_hands := 0
  longest_game := 0
  shortest_game := 0
  hand_history := []
  claude_streak := 0
  gpt_streak := 0
  winning_hand_info := ""
  dealer := "claude"

/-! ## One hand: `play_poker_hand` (source lines 496-782) -/

/-- What one `start_poker` run leaves behind: the final stacks reported in
`game_result['players']` for the two registered names, plus the shared-state
display fields written by the `declare_action` callbacks while the engine
was driving the hand (cards, pot, street, action log, equity readouts,
current-action labels, and how many all-ins were counted). -/
structure EngineResult where
  claudeFinal : Int
  gptFinal : Int
  potAfter : Int
  claudeCardsAfter : List String
  gptCardsAfter : List String
  communityCardsAfter : List String
  streetAfter : String
  actionsAfter : List String
  claudeActionAfter : String
  gptActionAfter : String
  claudeProbAfter : ℚ
  gptProbAfter : ℚ
  allinsDuring : Nat
deriving DecidableEq

/-- Source lines 500-534: counters increment, per-hand transient fields
reset, dealer alternation, winner banner cleared. -/
def handStartReset (s : GameState) : GameState :=
  { s with
    hand_number := s.hand_number + 1
    total_hands := s.total_hands + 1
    current_game_hands := s.current_game_hands + 1
    round := "preflop"
    street := "preflop"
    winner := ""
    last_action := ""
    claude_cards := []
    gpt_cards := []
    community_cards := []
    pot := 0
    action_history := []
    claude_current_action := ""
    gpt_current_action := ""
    claude_win_probability := 50
    gpt_win_probability := 50
    claude_is_thinking := false
    gpt_is_thinking := false
    dealer := if s.dealer = "claude" then "gpt" else "claude"
    winning_hand_info := "" }

/-- Source lines 551-555 (= 580-584 = 752-756): update the
longest/shortest completed-game extremes from `current_game_hands`. -/
def gameLengthUpdate (s : GameState) : GameState :=
  if s.current_game_hands > 0 then
    { s with
      longest_game :=
        if s.longest_game = 0 ∨ s.current_game_hands > s.longest_game then
          s.current_game_hands
        else s.longest_game
      shortest_game :=
        if s.shortest_game = 0 ∨ s.current_game_hands < s.shortest_game then
          s.current_game_hands
        else s.shortest_game }
  else s

/-- The pre-hand-bust match reset block (source lines 560-570 = 589-599).
Note that it does not touch the streak counters. -/
def matchResetPreBust (s : GameState) : GameState :=
  { s with
    claude_stack := 1000
    gpt_stack := 1000
    claude_wins := 0
    gpt_wins := 0
    hand_history := []
    stack_history := []
    biggest_pot := 0
    wait_for_new_game := true
    total_allins := 0
    game_pots := []
    current_game_hands := 0 }

/-- The post-hand-bust match reset block (source lines 761-775), which also
clears both streak counters. -/
def matchResetPostBust (s : GameState) : GameState :=
  { s with
    claude_stack := 1000
    gpt_stack := 1000
    claude_streak := 0
    gpt_streak := 0
    claude_wins := 0
    gpt_wins := 0
    hand_history := []
    stack_history := []
    biggest_pot := 0
    wait_for_new_game := true
    total_allins := 0
    game_pots := []
    current_game_hands := 0 }

/-- Source lines 602-632: the engine is configured with
`initial_stack = min(claude_stack, gpt_stack)`; after `start_poker`
returns, each seat's excess over that minimum is re-added to its reported
final stack.  The display fields written by the callbacks during the run
are applied from the `EngineResult`. -/
def engineRun (r : EngineResult) (s : GameState) : GameState :=
  let minStack := min s.claude_stack s.gpt_stack
  let claudeExcess := s.claude_stack - minStack
  let gptExcess := s.gpt_stack - minStack
  { s with
    pot := r.potAfter
    claude_cards := r.claudeCardsAfter
    gpt_cards := r.gptCardsAfter
    community_cards := r.communityCardsAfter
    street := r.streetAfter
    action_history := r.actionsAfter
    claude_current_action := r.claudeActionAfter
    gpt_current_action := r.gptActionAfter
    claude_win_probability := r.claudeProbAfter
    gpt_win_probability := r.gptProbAfter
    total_allins := s.total_allins + r.allinsDuring
    claude_stack := r.claudeFinal + claudeExcess
    gpt_stack := r.gptFinal + gptExcess }

/-- Source lines 634-637: the chip-conservation check, which only emits a
log warning; the hand proceeds unchanged whatever its outcome. -/
def chipTotalViolation (s : GameState) : Bool :=
  (s.claude_stack + s.gpt_stack - 2000).natAbs > 1

/-- Source lines 639-645: biggest-pot and average-pot trackers. -/
def potTrackers (s : GameState) : GameState :=
  let s := if s.pot > s.biggest_pot then { s with biggest_pot := s.pot } else s
  if s.pot > 0 then { s with game_pots := s.game_pots ++ [s.pot] } else s

/-- Source lines 647-691: the display-only `winning_hand_detail` string,
computed around the external `HandEvaluator` oracle; an evaluator exception
lands in the `except` branch. -/
def computeWinningHandDetail (ev : List String → List String → Except Unit Int)
    (claudeCards gptCards communityCards : List String) : String :=
  if claudeCards ≠ [] ∧ gptCards ≠ [] ∧ communityCards ≠ [] then
    let claudeHole := claudeCards.filterMap toCardObj
    let gptHole := gptCards.filterMap toCardObj
    let board := communityCards.filterMap toCardObj
    if claudeHole.length = 2 ∧ gptHole.length = 2 ∧ board.length ≥ 3 then
      match ev claudeHole board, ev gptHole board with
      | Except.ok claudeRank, Except.ok gptRank =>
        let claudeHandName := get_hand_rank_name claudeRank
        let gptHandName := get_hand_rank_name gptRank
        if claudeRank > gptRank then claudeHandName ++ " beats " ++ gptHandName
        else if gptRank > claudeRank then gptHandName ++ " beats " ++ claudeHandName
        else "Tie with " ++ claudeHandName
      | Except.error _, _ => "by stack comparison"
      | _, Except.error _ => "by stack comparison"
    else "by fold or insufficient cards"
  else "High Card"

/-- Source lines 693-703: the hand winner is the seat with the strictly
higher post-hand stack; equal stacks fall into the `else` branch (GPT). -/
def winnerUpdate (s : GameState) : GameState :=
  if s.claude_stack > s.gpt_stack then
    { s with
      winner := "Claude"
      claude_wins := s.claude_wins + 1
      claude_streak := s.claude_streak + 1
      gpt_streak := 0 }
  else
    { s with
      winner := "GPT"
      gpt_wins := s.gpt_wins + 1
      gpt_streak := s.gpt_streak + 1
      claude_streak := 0 }

/-- Source lines 705-739: winner banner, last action, bounded hand history
(cap 5, newest first, oldest popped from the tail) and bounded stack
history (cap 10, appended at the tail, oldest popped from the head). -/
def recordHand (detail : String) (s : GameState) : GameState :=
  let claudeCardsStr := if s.claude_cards ≠ [] then String.join s.claude_cards else "??"
  let gptCardsStr := if s.gpt_cards ≠ [] then String.join s.gpt_cards else "??"
  let handHistory :=
    let hh : List HandRecord :=
      { hand_number := s.hand_number
        winner := s.winner
        pot := s.pot
        hand_detail := detail
        claude_cards := s.claude_cards
        gpt_cards := s.gpt_cards
        community_cards := s.community_cards } :: s.hand_history
    if hh.length > 5 then hh.dropLast else hh
  let stackHistory :=
    let sh := s.stack_history ++ [⟨s.hand_number, s.claude_stack, s.gpt_stack⟩]
    if sh.length > 10 then sh.drop 1 else sh
  { s with
    winning_hand_info :=
      "🏆 " ++ upperStr s.winner ++ " WINS! • " ++ claudeCardsStr ++ " vs " ++
        gptCardsStr ++ " • Pot: $" ++ toString s.pot
    last_action := "Winner: " ++ s.winner ++ "!"
    hand_history := handHistory
    stack_history := stackHistory }

/-- Source lines 742-775: if either stack is now at or below zero, credit
the game win (Claude iff its stack is still positive), update the
game-length extremes, and run the post-hand match reset. -/
def postBustCheck (s : GameState) : GameState :=
  if s.claude_stack ≤ 0 ∨ s.gpt_stack ≤ 0 then
    let s :=
      if s.claude_stack > 0 then
        { s with claude_games_won := s.claude_games_won + 1 }
      else
        { s with gpt_games_won := s.gpt_games_won + 1 }
    matchResetPostBust (gameLengthUpdate s)
  else s

/-- Embedding of `play_poker_hand` (source lines 496-782).  `engine` is the
outcome of the external `start_poker` call: `none` models an exception
(the `except` branch at lines 777-782 only sets `round` to `"error"`), and
the `ev` oracle is `HandEvaluator.eval_hand` as used by the display-only
hand evaluation at lines 647-691. -/
def play_poker_hand (ev : List String → List String → Except Unit Int)
    (engine : Option EngineResult) (s0 : GameState) : GameState :=
  let s := handStartReset s0
  let bigBlind := bigBlindAmt s.hand_number
  if s.claude_stack < (bigBlind : Int) then
    matchResetPreBust (gameLengthUpdate
      { s with claude_stack := 0, gpt_games_won := s.gpt_games_won + 1 })
  else if s.gpt_stack < (bigBlind : Int) then
    matchResetPreBust (gameLengthUpdate
      { s with gpt_stack := 0, claude_games_won := s.claude_games_won + 1 })
  else
    match engine with
    | none => { s with round := "error" }
    | some r =>
      let s := engineRun r s
      let s := potTrackers s
      let detail := computeWinningHandDetail ev s.claude_cards s.gpt_cards s.community_cards
      let s := winnerUpdate s
      let s := recordHand detail s
      postBustCheck s

/-! ## Generic instances and small helper lemmas -/

instance exceptDecEq {ε α : Type} [DecidableEq ε] [DecidableEq α] :
    DecidableEq (Except ε α)
  | Except.error e, Except.error f =>
    match decEq e f with
    | isTrue h => isTrue (h ▸ rfl)
    | isFalse h => isFalse (by simp [h])
  | Except.error _, Except.ok _ => isFalse (by simp)
  | Except.ok _, Except.error _ => isFalse (by simp)
  | Except.ok a, Except.ok b =>
    match decEq a b with
    | isTrue h => isTrue (h ▸ rfl)
    | isFalse h => isFalse (by simp [h])

/-! ## C3: blind schedule -/

/-- C3: for every hand number `n ≥ 1`, the blind schedule computed at the
start of the hand is level `⌊n/10⌋`, small blind `5 + 5·level`, big blind
`2·small`, and both blinds are non-decreasing functions of the hand
number. -/
theorem blind_schedule_formula_and_monotone :
    (∀ n : Nat, 1 ≤ n →
      blindLevel n = n / 10 ∧
      smallBlindAmt n = 5 + 5 * (n / 10) ∧
      bigBlindAmt n = 2 * smallBlindAmt n) ∧
    (∀ m n : Nat, m ≤ n →
      smallBlindAmt m ≤ smallBlindAmt n ∧ bigBlindAmt m ≤ bigBlindAmt n) := by
  constructor
  · intro n _
    refine ⟨rfl, ?_, ?_⟩ <;> simp [smallBlindAmt, bigBlindAmt, blindLevel] <;> omega
  · intro m n h
    have hdiv : m / 10 ≤ n / 10 := Nat.div_le_div_right h
    constructor <;> simp [smallBlindAmt, bigBlindAmt, blindLevel] <;> omega

/-- Witness for C3 at hand numbers 7 and 25. -/
theorem blind_schedule_formula_and_monotone_witness :
    smallBlindAmt 25 = 5 + 5 * (25 / 10) ∧ smallBlindAmt 7 ≤ smallBlindAmt 25 :=
  ⟨(blind_schedule_formula_and_monotone.1 25 (by decide)).2.1,
   (blind_schedule_formula_and_monotone.2 7 25 (by decide)).1⟩

/-! ## C4: raise clamping -/

/-- C4: when the parsed action is `raise` and the legal-action set contains
a raise entry with bounds `{min, max}` where `min ≤ max`, the clamped
amount lies in `[min, max]`; the returned action is the clamped raise
unless the clamped amount is negative, in which case it is downgraded to
`('call', 0)`. -/
theorem raise_clamp_within_legal_range
    (validActions : List ValidAction) (amount mn mx myStack : Int)
    (hfind : validActions.find? (fun a => a.action == "raise") =
      some { action := "raise", amount := ActionAmount.range (some mn) (some mx) })
    (hrange : mn ≤ mx) :
    mn ≤ clampedRaiseAmount amount (some mn) (some mx) myStack ∧
    clampedRaiseAmount amount (some mn) (some mx) myStack ≤ mx ∧
    resolveAction validActions "raise" amount myStack =
      (if clampedRaiseAmount amount (some mn) (some mx) myStack < 0 then
        ("call", ActionAmount.fixed 0)
      else
        ("raise", ActionAmount.fixed (clampedRaiseAmount amount (some mn) (some mx) myStack))) := by
  refine ⟨?_, ?_, ?_⟩
  · simp only [clampedRaiseAmount, Option.getD_some]
    split <;> split <;> omega
  · simp only [clampedRaiseAmount, Option.getD_some]
    split <;> split <;> omega
  · simp [resolveAction, hfind]

/-- Witness for C4: a request of 500 against legal range `[40, 200]` is
capped to 200. -/
theorem raise_clamp_within_legal_range_witness :
    (40 : Int) ≤ clampedRaiseAmount 500 (some 40) (some 200) 1000 ∧
    clampedRaiseAmount 500 (some 40) (some 200) 1000 ≤ 200 ∧
    resolveAction
        [{ action := "fold", amount := ActionAmount.fixed 0 },
         { action := "call", amount := ActionAmount.fixed 10 },
         { action := "raise", amount := ActionAmount.range (some 40) (some 200) }]
        "raise" 500 1000 =
      (if clampedRaiseAmount 500 (some 40) (some 200) 1000 < 0 then
        ("call", ActionAmount.fixed 0)
      else ("raise", ActionAmount.fixed (clampedRaiseAmount 500 (some 40) (some 200) 1000))) :=
  raise_clamp_within_legal_range
    [{ action := "fold", amount := ActionAmount.fixed 0 },
     { action := "call", amount := ActionAmount.fixed 10 },
     { action := "raise", amount := ActionAmount.range (some 40) (some 200) }]
    500 40 200 1000 (by decide) (by decide)

/-! ## C5: free-text decision parsing -/

/-- C5: `parse_ai_decision` scans the lowercased, stripped text in a fixed
order: any occurrence of "fold" wins, then "call", then "raise"/"bet"
(with the first embedded integer, default 20), and otherwise the result is
`('call', 0)`; with the concrete examples of the claim. -/
theorem parse_ai_decision_priority_order :
    (∀ s : String, strContains (stripStr (lowerStr s)) "fold" = true →
      parse_ai_decision s = ("fold", 0)) ∧
    (∀ s : String, strContains (stripStr (lowerStr s)) "fold" = false →
      strContains (stripStr (lowerStr s)) "call" = true →
      parse_ai_decision s = ("call", 0)) ∧
    (∀ s : String, strContains (stripStr (lowerStr s)) "fold" = false →
      strContains (stripStr (lowerStr s)) "call" = false →
      (strContains (stripStr (lowerStr s)) "raise" = true ∨
        strContains (stripStr (lowerStr s)) "bet" = true) →
      parse_ai_decision s =
        ("raise", ((firstNumber (stripStr (lowerStr s)).data).map Int.ofNat).getD 20)) ∧
    (∀ s : String, strContains (stripStr (lowerStr s)) "fold" = false →
      strContains (stripStr (lowerStr s)) "call" = false →
      strContains (stripStr (lowerStr s)) "raise" = false →
      strContains (stripStr (lowerStr s)) "bet" = false →
      parse_ai_decision s = ("call", 0)) ∧
    parse_ai_decision "I will fold here" = ("fold", 0) ∧
    parse_ai_decision "raise 75" = ("raise", 75) ∧
    parse_ai_decision "call please" = ("call", 0) ∧
    parse_ai_decision "I could raise 100 but I fold" = ("fold", 0) := by
  refine ⟨?_, ?_, ?_, ?_, by decide, by decide, by decide, by decide⟩
  · intro s h1
    simp [parse_ai_decision, h1]
  · intro s h1 h2
    simp [parse_ai_decision, h1, h2]
  · intro s h1 h2 h3
    have hrb : (strContains (stripStr (lowerStr s)) "raise" ||
        strContains (stripStr (lowerStr s)) "bet") = true := by
      rcases h3 with h | h <;> simp [h]
    simp only [parse_ai_decision, h1, h2, hrb, Bool.false_eq_true, if_false, if_true]
    cases hfn : firstNumber (stripStr (lowerStr s)).data <;> simp [hfn]
  · intro s h1 h2 h3 h4
    simp [parse_ai_decision, h1, h2, h3, h4]

/-- Witness for C5 on the "bet with an embedded integer" branch. -/
theorem parse_ai_decision_priority_order_witness :
    parse_ai_decision "we should bet 40 now" = ("raise", 40) :=
  (parse_ai_decision_priority_order.2.2.1 "we should bet 40 now"
    (by decide) (by decide) (Or.inr (by decide))).trans (by decide)

/-! ## C6: equity estimator fallback to (50, 50) -/

/-- C6: `calculate_win_probabilities` returns exactly `(50, 50)` whenever
either side's recognized hole cards do not number exactly 2, and whenever
the body raises an internal exception; it never propagates an error. -/
theorem equity_fallback_fifty_fifty :
    (∀ (ev : List String → List String → Except Unit Int)
      (sample : Nat → Except Unit (List String))
      (claudeCards gptCards communityCards : List String),
      ((claudeCards.filterMap cardToPypokerObj).length ≠ 2 ∨
        (gptCards.filterMap cardToPypokerObj).length ≠ 2) →
      calculate_win_probabilities ev sample claudeCards gptCards communityCards = (50, 50)) ∧
    (∀ (ev : List String → List String → Except Unit Int)
      (sample : Nat → Except Unit (List String))
      (claudeCards gptCards communityCards : List String) (e : Unit),
      calcWinProbBody ev sample claudeCards gptCards communityCards = Except.error e →
      calculate_win_probabilities ev sample claudeCards gptCards communityCards = (50, 50)) := by
  constructor
  · intro ev sample cc gc comm h
    have hbody : calcWinProbBody ev sample cc gc comm = Except.ok (50, 50) := by
      unfold calcWinProbBody
      by_cases hempty : cc = [] ∨ gc = []
      · rw [if_pos hempty]
      · rw [if_neg hempty]
        dsimp only
        rw [if_pos h]
    unfold calculate_win_probabilities
    rw [hbody]
  · intro ev sample cc gc comm e h
    unfold calculate_win_probabilities
    rw [h]

/-- Witness for C6: a single malformed hero card, and an evaluator
exception on a full board, both yield `(50, 50)`. -/
theorem equity_fallback_fifty_fifty_witness :
    calculate_win_probabilities (fun _ _ => Except.ok 0) (fun _ => Except.ok [])
      ["A♠"] ["Q♥", "J♥"] [] = (50, 50) ∧
    calculate_win_probabilities (fun _ _ => Except.error ()) (fun _ => Except.ok [])
      ["A♠", "K♠"] ["Q♥", "J♥"] ["2♣", "3♣", "4♦", "5♦", "7♥"] = (50, 50) :=
  ⟨equity_fallback_fifty_fifty.1 _ _ _ _ _ (Or.inl (by decide)),
   equity_fallback_fifty_fifty.2 _ _ _ _ _ () (by decide)⟩

/-! ## C7: full-board direct evaluation -/

/-- C7: with exactly 2 recognized hole cards per side and 5 recognized
board cards, the estimator takes the no-sampling path and returns the
degenerate `(100, 0)` / `(0, 100)` / `(50, 50)` by strict comparison of
the two hand-rank scores. -/
theorem equity_full_board_direct_eval
    (ev : List String → List String → Except Unit Int)
    (sample : Nat → Except Unit (List String))
    (claudeCards gptCards communityCards : List String) (cs gs : Int)
    (hc : (claudeCards.filterMap cardToPypokerObj).length = 2)
    (hg : (gptCards.filterMap cardToPypokerObj).length = 2)
    (hb : (communityCards.filterMap cardToPypokerObj).length = 5)
    (hev1 : ev (claudeCards.filterMap cardToPypokerObj)
      (communityCards.filterMap cardToPypokerObj) = Except.ok cs)
    (hev2 : ev (gptCards.filterMap cardToPypokerObj)
      (communityCards.filterMap cardToPypokerObj) = Except.ok gs) :
    calculate_win_probabilities ev sample claudeCards gptCards communityCards =
      (if cs > gs then (100, 0) else if gs > cs then (0, 100) else (50, 50)) := by
  have hcc : ¬(claudeCards = [] ∨ gptCards = []) := by
    rintro (rfl | rfl) <;> simp at hc hg
  have hbody : calcWinProbBody ev sample claudeCards gptCards communityCards =
      (if cs > gs then Except.ok (100, 0)
       else if gs > cs then Except.ok (0, 100) else Except.ok (50, 50)) := by
    unfold calcWinProbBody
    rw [if_neg hcc]
    dsimp only
    rw [if_neg (by simp [hc, hg]), hb]
    rw [if_pos (by norm_num), hev1, hev2]
  unfold calculate_win_probabilities
  rw [hbody]
  split_ifs <;> rfl

/-- Witness for C7: ace-king high beats queen-jack on a completed board
under an evaluator scoring those holes 2000000 vs 1000000. -/
theorem equity_full_board_direct_eval_witness :
    calculate_win_probabilities
      (fun h _ => if h = ["SA", "SK"] then Except.ok 2000000 else Except.ok 1000000)
      (fun _ => Except.ok [])
      ["A♠", "K♠"] ["Q♥", "J♥"] ["2♣", "3♣", "4♦", "5♦", "7♥"] =
      (if (2000000 : Int) > 1000000 then ((100 : ℚ), (0 : ℚ))
       else if (1000000 : Int) > 2000000 then (0, 100) else (50, 50)) :=
  equity_full_board_direct_eval _ _ _ _ _ 2000000 1000000
    (by decide) (by decide) (by decide) (by decide) (by decide)

/-! ## C9: Monte Carlo tallies and percentage identities -/

/-- Half-to-even rounding moves a rational by at most `1/2`. -/
theorem roundHalfToEven_close (x : ℚ) : |(roundHalfToEven x : ℚ) - x| ≤ 1 / 2 := by
  have hf : ((⌊x⌋ : ℤ) : ℚ) = x - Int.fract x := by
    rw [Int.self_sub_fract]
  have h0 := Int.fract_nonneg x
  have h1 := Int.fract_lt_one x
  unfold roundHalfToEven
  split_ifs with hlt hgt hev <;>
    (rw [abs_le]; constructor <;> push_cast [hf] <;> linarith)

theorem roundHalfToEven_nonneg (x : ℚ) (hx : 0 ≤ x) : 0 ≤ roundHalfToEven x := by
  have h0 : (0 : ℤ) ≤ ⌊x⌋ := Int.floor_nonneg.mpr hx
  unfold roundHalfToEven
  split_ifs <;> omega

theorem roundHalfToEven_le (x : ℚ) (n : ℤ) (hx : x ≤ n) : roundHalfToEven x ≤ n := by
  have hfl : ⌊x⌋ ≤ n := by
    have h := Int.floor_le_floor hx
    simpa using h
  have hkey : 1 / 2 ≤ Int.fract x → ⌊x⌋ + 1 ≤ n := by
    intro h2
    rcases lt_or_eq_of_le hfl with h | h
    · omega
    · exfalso
      have hnq : ((n : ℤ) : ℚ) = ((⌊x⌋ : ℤ) : ℚ) := by exact_mod_cast congrArg Int.cast h.symm
      have hfloor : ((⌊x⌋ : ℤ) : ℚ) ≤ x := Int.floor_le x
      have hfr2 : 1 / 2 ≤ x - ((⌊x⌋ : ℤ) : ℚ) := by
        have := Int.self_sub_floor x
        rw [show x - ((⌊x⌋ : ℤ) : ℚ) = Int.fract x from this]
        exact h2
      linarith [hx, hnq.symm.le]
  unfold roundHalfToEven
  split_ifs with hlt hgt hev
  · exact hfl
  · exact hkey (le_of_lt hgt)
  · exact hfl
  · exact hkey (le_of_not_lt hlt)

/-- Python `round(x, 1)` moves a rational by at most `1/20`. -/
theorem pyRound1_close (x : ℚ) : |pyRound1 x - x| ≤ 1 / 20 := by
  have h := roundHalfToEven_close (10 * x)
  have hx : pyRound1 x - x = ((roundHalfToEven (10 * x) : ℚ) - 10 * x) / 10 := by
    unfold pyRound1; ring
  rw [hx, abs_div, abs_of_pos (by norm_num : (0 : ℚ) < 10)]
  linarith

theorem pyRound1_nonneg (x : ℚ) (hx : 0 ≤ x) : 0 ≤ pyRound1 x := by
  unfold pyRound1
  have h := roundHalfToEven_nonneg (10 * x) (by linarith)
  positivity

theorem pyRound1_le_100 (x : ℚ) (hx : x ≤ 100) : pyRound1 x ≤ 100 := by
  have h : roundHalfToEven (10 * x) ≤ (1000 : ℤ) :=
    roundHalfToEven_le _ 1000 (by push_cast; linarith)
  unfold pyRound1
  rw [div_le_iff₀ (by norm_num : (0 : ℚ) < 10)]
  calc ((roundHalfToEven (10 * x) : ℤ) : ℚ) ≤ 1000 := by exact_mod_cast h
  _ = 100 * 10 := by norm_num

/-- Every simulation of the Monte Carlo loop lands in exactly one tally
bucket, so the three tallies sum to the number of simulations run. -/
theorem runSims_total (ev : List String → List String → Except Unit Int)
    (sample : Nat → Except Unit (List String)) (ch gh bd : List String) :
    ∀ n cw gw t, runSims ev sample ch gh bd n = Except.ok (cw, gw, t) →
      cw + gw + t = n := by
  intro n
  induction n with
  | zero =>
    intro cw gw t h
    simp only [runSims, Except.ok.injEq, Prod.mk.injEq] at h
    omega
  | succ n ih =>
    intro cw gw t h
    simp only [runSims] at h
    cases hr : runSims ev sample ch gh bd n with
    | error e => rw [hr] at h; cases h
    | ok acc =>
      obtain ⟨a, b, c⟩ := acc
      rw [hr] at h
      dsimp only at h
      have hacc := ih a b c hr
      cases hs : sample n with
      | error e => rw [hs] at h; cases h
      | ok drawn =>
        rw [hs] at h
        dsimp only at h
        cases he1 : ev ch (bd ++ drawn) with
        | error e =>
          cases he2 : ev gh (bd ++ drawn) with
          | error f => rw [he1, he2] at h; cases h
          | ok gs => rw [he1, he2] at h; cases h
        | ok cs =>
          cases he2 : ev gh (bd ++ drawn) with
          | error e => rw [he1, he2] at h; cases h
          | ok gs =>
            rw [he1, he2] at h
            dsimp only at h
            split_ifs at h <;>
              simp only [Except.ok.injEq, Prod.mk.injEq] at h <;> omega

/-- C9: in the Monte Carlo path every one of the 500 simulations lands in
exactly one tally bucket, the two unrounded percentages sum to exactly 100
and lie in `[0, 100]`, the function returns their half-even roundings to
one decimal, and the returned pair sums to 100 up to at most `1/10` of
rounding discrepancy. -/
theorem monte_carlo_tally_and_percentages
    (ev : List String → List String → Except Unit Int)
    (sample : Nat → Except Unit (List String))
    (claudeCards gptCards communityCards : List String) (cw gw t : Nat)
    (hc : (claudeCards.filterMap cardToPypokerObj).length = 2)
    (hg : (gptCards.filterMap cardToPypokerObj).length = 2)
    (hb : (communityCards.filterMap cardToPypokerObj).length < 5)
    (hrun : runSims ev sample (claudeCards.filterMap cardToPypokerObj)
      (gptCards.filterMap cardToPypokerObj)
      (communityCards.filterMap cardToPypokerObj) 500 = Except.ok (cw, gw, t)) :
    cw + gw + t = 500 ∧
    ((cw + t * (1 / 2 : ℚ)) / 500) * 100 + ((gw + t * (1 / 2 : ℚ)) / 500) * 100 = 100 ∧
    (0 ≤ ((cw + t * (1 / 2 : ℚ)) / 500) * 100 ∧ ((cw + t * (1 / 2 : ℚ)) / 500) * 100 ≤ 100) ∧
    (0 ≤ ((gw + t * (1 / 2 : ℚ)) / 500) * 100 ∧ ((gw + t * (1 / 2 : ℚ)) / 500) * 100 ≤ 100) ∧
    calculate_win_probabilities ev sample claudeCards gptCards communityCards =
      (pyRound1 (((cw + t * (1 / 2 : ℚ)) / 500) * 100),
       pyRound1 (((gw + t * (1 / 2 : ℚ)) / 500) * 100)) ∧
    (0 ≤ pyRound1 (((cw + t * (1 / 2 : ℚ)) / 500) * 100) ∧
      pyRound1 (((cw + t * (1 / 2 : ℚ)) / 500) * 100) ≤ 100) ∧
    (0 ≤ pyRound1 (((gw + t * (1 / 2 : ℚ)) / 500) * 100) ∧
      pyRound1 (((gw + t * (1 / 2 : ℚ)) / 500) * 100) ≤ 100) ∧
    |pyRound1 (((cw + t * (1 / 2 : ℚ)) / 500) * 100) +
      pyRound1 (((gw + t * (1 / 2 : ℚ)) / 500) * 100) - 100| ≤ 1 / 10 := by
  have htot : cw + gw + t = 500 :=
    runSims_total ev sample _ _ _ 500 cw gw t hrun
  have hcast : (cw : ℚ) + (gw : ℚ) + (t : ℚ) = 500 := by exact_mod_cast htot
  have hcw0 : (0 : ℚ) ≤ cw := Nat.cast_nonneg cw
  have hgw0 : (0 : ℚ) ≤ gw := Nat.cast_nonneg gw
  have ht0 : (0 : ℚ) ≤ t := Nat.cast_nonneg t
  set cp : ℚ := ((cw + t * (1 / 2 : ℚ)) / 500) * 100 with hcp
  set gp : ℚ := ((gw + t * (1 / 2 : ℚ)) / 500) * 100 with hgp
  have hsum : cp + gp = 100 := by
    rw [hcp, hgp]
    field_simp
    linarith
  have hcpb : 0 ≤ cp ∧ cp ≤ 100 := by
    constructor
    · rw [hcp]; positivity
    · rw [hcp, div_mul_eq_mul_div, div_le_iff₀ (by norm_num : (0 : ℚ) < 500)]
      linarith
  have hgpb : 0 ≤ gp ∧ gp ≤ 100 := by
    constructor
    · rw [hgp]; positivity
    · rw [hgp, div_mul_eq_mul_div, div_le_iff₀ (by norm_num : (0 : ℚ) < 500)]
      linarith
  have hccne : ¬(claudeCards = [] ∨ gptCards = []) := by
    rintro (rfl | rfl) <;> simp at hc hg
  have hbody : calcWinProbBody ev sample claudeCards gptCards communityCards =
      Except.ok (pyRound1 cp, pyRound1 gp) := by
    unfold calcWinProbBody
    rw [if_neg hccne]
    dsimp only
    rw [if_neg (by simp [hc, hg])]
    rw [if_neg (by omega :
      ¬((5 : Int) - ((communityCards.filterMap cardToPypokerObj).length : Int) = 0))]
    rw [hrun]
  have hmain : calculate_win_probabilities ev sample claudeCards gptCards communityCards =
      (pyRound1 cp, pyRound1 gp) := by
    unfold calculate_win_probabilities
    rw [hbody]
  have hr1 := pyRound1_close cp
  have hr2 := pyRound1_close gp
  refine ⟨htot, hsum, hcpb, hgpb, hmain,
    ⟨pyRound1_nonneg cp hcpb.1, pyRound1_le_100 cp hcpb.2⟩,
    ⟨pyRound1_nonneg gp hgpb.1, pyRound1_le_100 gp hgpb.2⟩, ?_⟩
  rw [show pyRound1 cp + pyRound1 gp - 100 = (pyRound1 cp - cp) + (pyRound1 gp - gp) by
    linarith]
  calc |(pyRound1 cp - cp) + (pyRound1 gp - gp)|
      ≤ |pyRound1 cp - cp| + |pyRound1 gp - gp| := abs_add _ _
    _ ≤ 1 / 20 + 1 / 20 := add_le_add hr1 hr2
    _ = 1 / 10 := by norm_num

set_option maxRecDepth 200000
set_option maxHeartbeats 2000000

/-- Witness for C9: an always-tying evaluator over 500 simulations. -/
theorem monte_carlo_tally_and_percentages_witness :
    (0 : Nat) + 0 + 500 = 500 ∧
    |pyRound1 ((((0 : Nat) + (500 : Nat) * (1 / 2 : ℚ)) / 500) * 100) +
      pyRound1 ((((0 : Nat) + (500 : Nat) * (1 / 2 : ℚ)) / 500) * 100) - 100| ≤ 1 / 10 := by
  have h := monte_carlo_tally_and_percentages
    (fun _ _ => Except.ok 0) (fun _ => Except.ok [])
    ["A♠", "K♠"] ["Q♥", "J♥"] [] 0 0 500
    (by decide) (by decide) (by decide) (by decide)
  exact ⟨h.1, h.2.2.2.2.2.2.2⟩

/-! ## Lifecycle path lemmas -/

/-- A constant hand evaluator used to instantiate the evaluator oracle in
closed statements (the lifecycle claims do not depend on it). -/
def evalHandAlways0 : List String → List String → Except Unit Int :=
  fun _ _ => Except.ok 0

/-- An engine run reporting the given final stacks and leaving neutral
display fields behind. -/
def engineReportStd (cf gf : Int) : EngineResult where
  claudeFinal := cf
  gptFinal := gf
  potAfter := 40
  claudeCardsAfter := []
  gptCardsAfter := []
  communityCardsAfter := []
  streetAfter := "river"
  actionsAfter := []
  claudeActionAfter := ""
  gptActionAfter := ""
  claudeProbAfter := 50
  gptProbAfter := 50
  allinsDuring := 0

theorem gameLengthUpdate_eq (s : GameState) :
    gameLengthUpdate s =
      { s with
        longest_game :=
          if s.current_game_hands > 0 then
            (if s.longest_game = 0 ∨ s.current_game_hands > s.longest_game then
              s.current_game_hands
            else s.longest_game)
          else s.longest_game
        shortest_game :=
          if s.current_game_hands > 0 then
            (if s.shortest_game = 0 ∨ s.current_game_hands < s.shortest_game then
              s.current_game_hands
            else s.shortest_game)
          else s.shortest_game } := by
  unfold gameLengthUpdate
  split_ifs <;> rfl

theorem potTrackers_eq (s : GameState) :
    potTrackers s =
      { s with
        biggest_pot := if s.pot > s.biggest_pot then s.pot else s.biggest_pot
        game_pots := if s.pot > 0 then s.game_pots ++ [s.pot] else s.game_pots } := by
  unfold potTrackers
  dsimp only
  split_ifs <;> rfl

theorem winnerUpdate_eq (s : GameState) :
    winnerUpdate s =
      { s with
        winner := if s.claude_stack > s.gpt_stack then "Claude" else "GPT"
        claude_wins :=
          if s.claude_stack > s.gpt_stack then s.claude_wins + 1 else s.claude_wins
        gpt_wins :=
          if s.claude_stack > s.gpt_stack then s.gpt_wins else s.gpt_wins + 1
        claude_streak :=
          if s.claude_stack > s.gpt_stack then s.claude_streak + 1 else 0
        gpt_streak :=
          if s.claude_stack > s.gpt_stack then 0 else s.gpt_streak + 1 } := by
  unfold winnerUpdate
  split_ifs <;> rfl

theorem postBustCheck_eq (s : GameState) :
    postBustCheck s =
      if s.claude_stack ≤ 0 ∨ s.gpt_stack ≤ 0 then
        matchResetPostBust (gameLengthUpdate
          (if s.claude_stack > 0 then
            { s with claude_games_won := s.claude_games_won + 1 }
          else { s with gpt_games_won := s.gpt_games_won + 1 }))
      else s := by
  unfold postBustCheck
  dsimp only

theorem play_preBustClaude (ev : List String → List String → Except Unit Int)
    (engine : Option EngineResult) (s : GameState)
    (h : s.claude_stack < (bigBlindAmt (s.hand_number + 1) : Int)) :
    play_poker_hand ev engine s =
      matchResetPreBust (gameLengthUpdate
        { handStartReset s with
          claude_stack := 0
          gpt_games_won := (handStartReset s).gpt_games_won + 1 }) := by
  unfold play_poker_hand
  dsimp only
  rw [if_pos (show (handStartReset s).claude_stack <
    ((bigBlindAmt (handStartReset s).hand_number : Nat) : Int) from h)]

theorem play_preBustGpt (ev : List String → List String → Except Unit Int)
    (engine : Option EngineResult) (s : GameState)
    (h1 : ¬(s.claude_stack < (bigBlindAmt (s.hand_number + 1) : Int)))
    (h2 : s.gpt_stack < (bigBlindAmt (s.hand_number + 1) : Int)) :
    play_poker_hand ev engine s =
      matchResetPreBust (gameLengthUpdate
        { handStartReset s with
          gpt_stack := 0
          claude_games_won := (handStartReset s).claude_games_won + 1 }) := by
  unfold play_poker_hand
  dsimp only
  rw [if_neg (show ¬((handStartReset s).claude_stack <
        ((bigBlindAmt (handStartReset s).hand_number : Nat) : Int)) from h1),
    if_pos (show (handStartReset s).gpt_stack <
        ((bigBlindAmt (handStartReset s).hand_number : Nat) : Int) from h2)]

theorem play_engineNone (ev : List String → List String → Except Unit Int)
    (s : GameState)
    (h1 : ¬(s.claude_stack < (bigBlindAmt (s.hand_number + 1) : Int)))
    (h2 : ¬(s.gpt_stack < (bigBlindAmt (s.hand_number + 1) : Int))) :
    play_poker_hand ev none s = { handStartReset s with round := "error" } := by
  unfold play_poker_hand
  dsimp only
  rw [if_neg (show ¬((handStartReset s).claude_stack <
        ((bigBlindAmt (handStartReset s).hand_number : Nat) : Int)) from h1),
    if_neg (show ¬((handStartReset s).gpt_stack <
        ((bigBlindAmt (handStartReset s).hand_number : Nat) : Int)) from h2)]

theorem play_engineSome (ev : List String → List String → Except Unit Int)
    (r : EngineResult) (s : GameState)
    (h1 : ¬(s.claude_stack < (bigBlindAmt (s.hand_number + 1) : Int)))
    (h2 : ¬(s.gpt_stack < (bigBlindAmt (s.hand_number + 1) : Int))) :
    play_poker_hand ev (some r) s =
      postBustCheck (recordHand
        (computeWinningHandDetail ev
          (potTrackers (engineRun r (handStartReset s))).claude_cards
          (potTrackers (engineRun r (handStartReset s))).gpt_cards
          (potTrackers (engineRun r (handStartReset s))).community_cards)
        (winnerUpdate (potTrackers (engineRun r (handStartReset s))))) := by
  unfold play_poker_hand
  dsimp only
  rw [if_neg (show ¬((handStartReset s).claude_stack <
        ((bigBlindAmt (handStartReset s).hand_number : Nat) : Int)) from h1),
    if_neg (show ¬((handStartReset s).gpt_stack <
        ((bigBlindAmt (handStartReset s).hand_number : Nat) : Int)) from h2)]

/-! ## C1: chip conservation across a hand -/

/-- C1: each seat's excess over the common engine stack is set aside and
re-added after the hand, so whenever the engine reports final stacks
summing to twice the common initial stack (and neither restored stack
busts), the two stacks sum to the same total as before the hand; in the
1000/1000 scenario with an engine report of 1020/980 the final stacks are
exactly 1020/980; and a conservation violation is only flagged, never
fatal: play continues and settles the reported stacks unchanged. -/
theorem chip_conservation_across_hand :
    (∀ (ev : List String → List String → Except Unit Int)
      (r : EngineResult) (s : GameState),
      ¬(s.claude_stack < (bigBlindAmt (s.hand_number + 1) : Int)) →
      ¬(s.gpt_stack < (bigBlindAmt (s.hand_number + 1) : Int)) →
      r.claudeFinal + r.gptFinal = 2 * min s.claude_stack s.gpt_stack →
      0 < r.claudeFinal + (s.claude_stack - min s.claude_stack s.gpt_stack) →
      0 < r.gptFinal + (s.gpt_stack - min s.claude_stack s.gpt_stack) →
      (play_poker_hand ev (some r) s).claude_stack +
        (play_poker_hand ev (some r) s).gpt_stack =
        s.claude_stack + s.gpt_stack) ∧
    ((play_poker_hand evalHandAlways0 (some (engineReportStd 1020 980))
        initialGameState).claude_stack = 1020 ∧
      (play_poker_hand evalHandAlways0 (some (engineReportStd 1020 980))
        initialGameState).gpt_stack = 980) ∧
    (chipTotalViolation
        (engineRun (engineReportStd 1500 980) (handStartReset initialGameState)) = true ∧
      (play_poker_hand evalHandAlways0 (some (engineReportStd 1500 980))
        initialGameState).claude_stack = 1500 ∧
      (play_poker_hand evalHandAlways0 (some (engineReportStd 1500 980))
        initialGameState).gpt_stack = 980 ∧
      (play_poker_hand evalHandAlways0 (some (engineReportStd 1500 980))
        initialGameState).round = "preflop") := by
  refine ⟨?_, ⟨by decide, by decide⟩, by decide, by decide, by decide, by decide⟩
  intro ev r s h1 h2 hsum hc hg
  rw [play_engineSome ev r s h1 h2]
  have hcs : (recordHand
      (computeWinningHandDetail ev
        (potTrackers (engineRun r (handStartReset s))).claude_cards
        (potTrackers (engineRun r (handStartReset s))).gpt_cards
        (potTrackers (engineRun r (handStartReset s))).community_cards)
      (winnerUpdate (potTrackers (engineRun r (handStartReset s))))).claude_stack =
      r.claudeFinal + (s.claude_stack - min s.claude_stack s.gpt_stack) := by
    rw [winnerUpdate_eq, potTrackers_eq]
    rfl
  have hgs : (recordHand
      (computeWinningHandDetail ev
        (potTrackers (engineRun r (handStartReset s))).claude_cards
        (potTrackers (engineRun r (handStartReset s))).gpt_cards
        (potTrackers (engineRun r (handStartReset s))).community_cards)
      (winnerUpdate (potTrackers (engineRun r (handStartReset s))))).gpt_stack =
      r.gptFinal + (s.gpt_stack - min s.claude_stack s.gpt_stack) := by
    rw [winnerUpdate_eq, potTrackers_eq]
    rfl
  rw [postBustCheck_eq]
  rw [if_neg (by rw [hcs, hgs]; omega)]
  rw [hcs, hgs]
  omega

/-- Witness for C1: a 1013/987 engine report from even 1000/1000 stacks
conserves the 2000 total. -/
theorem chip_conservation_across_hand_witness :
    (play_poker_hand evalHandAlways0 (some (engineReportStd 1013 987))
        initialGameState).claude_stack +
      (play_poker_hand evalHandAlways0 (some (engineReportStd 1013 987))
        initialGameState).gpt_stack =
      initialGameState.claude_stack + initialGameState.gpt_stack :=
  chip_conservation_across_hand.1 evalHandAlways0 (engineReportStd 1013 987)
    initialGameState (by decide) (by decide) (by decide) (by decide) (by decide)

/-! ## C8: hand winner by higher post-hand stack -/

/-- C8: after a completed non-bust hand the declared winner is the seat
with the strictly higher post-hand stack; the winner's hand-win counter
and streak increment while the loser's streak resets to 0; equal stacks
fall to the `else` branch and are declared for GPT rather than a tie. -/
theorem hand_winner_by_higher_stack
    (ev : List String → List String → Except Unit Int)
    (r : EngineResult) (s : GameState)
    (h1 : ¬(s.claude_stack < (bigBlindAmt (s.hand_number + 1) : Int)))
    (h2 : ¬(s.gpt_stack < (bigBlindAmt (s.hand_number + 1) : Int)))
    (hc : 0 < r.claudeFinal + (s.claude_stack - min s.claude_stack s.gpt_stack))
    (hg : 0 < r.gptFinal + (s.gpt_stack - min s.claude_stack s.gpt_stack)) :
    (play_poker_hand ev (some r) s).winner =
      (if r.claudeFinal + (s.claude_stack - min s.claude_stack s.gpt_stack) >
          r.gptFinal + (s.gpt_stack - min s.claude_stack s.gpt_stack) then
        "Claude" else "GPT") ∧
    (play_poker_hand ev (some r) s).claude_wins =
      (if r.claudeFinal + (s.claude_stack - min s.claude_stack s.gpt_stack) >
          r.gptFinal + (s.gpt_stack - min s.claude_stack s.gpt_stack) then
        s.claude_wins + 1 else s.claude_wins) ∧
    (play_poker_hand ev (some r) s).gpt_wins =
      (if r.claudeFinal + (s.claude_stack - min s.claude_stack s.gpt_stack) >
          r.gptFinal + (s.gpt_stack - min s.claude_stack s.gpt_stack) then
        s.gpt_wins else s.gpt_wins + 1) ∧
    (play_poker_hand ev (some r) s).claude_streak =
      (if r.claudeFinal + (s.claude_stack - min s.claude_stack s.gpt_stack) >
          r.gptFinal + (s.gpt_stack - min s.claude_stack s.gpt_stack) then
        s.claude_streak + 1 else 0) ∧
    (play_poker_hand ev (some r) s).gpt_streak =
      (if r.claudeFinal + (s.claude_stack - min s.claude_stack s.gpt_stack) >
          r.gptFinal + (s.gpt_stack - min s.claude_stack s.gpt_stack) then
        0 else s.gpt_streak + 1) := by
  rw [play_engineSome ev r s h1 h2]
  have hcs : (recordHand
      (computeWinningHandDetail ev
        (potTrackers (engineRun r (handStartReset s))).claude_cards
        (potTrackers (engineRun r (handStartReset s))).gpt_cards
        (potTrackers (engineRun r (handStartReset s))).community_cards)
      (winnerUpdate (potTrackers (engineRun r (handStartReset s))))).claude_stack =
      r.claudeFinal + (s.claude_stack - min s.claude_stack s.gpt_stack) := by
    rw [winnerUpdate_eq, potTrackers_eq]
    rfl
  have hgs : (recordHand
      (computeWinningHandDetail ev
        (potTrackers (engineRun r (handStartReset s))).claude_cards
        (potTrackers (engineRun r (handStartReset s))).gpt_cards
        (potTrackers (engineRun r (handStartReset s))).community_cards)
      (winnerUpdate (potTrackers (engineRun r (handStartReset s))))).gpt_stack =
      r.gptFinal + (s.gpt_stack - min s.claude_stack s.gpt_stack) := by
    rw [winnerUpdate_eq, potTrackers_eq]
    rfl
  rw [postBustCheck_eq]
  rw [if_neg (by rw [hcs, hgs]; omega)]
  rw [winnerUpdate_eq, potTrackers_eq]
  exact ⟨rfl, rfl, rfl, rfl, rfl⟩

/-- Witness for C8 at the tie case: equal 1000/1000 post-hand stacks are
declared for GPT via the `else` branch. -/
theorem hand_winner_by_higher_stack_witness :
    (play_poker_hand evalHandAlways0 (some (engineReportStd 1000 1000))
        initialGameState).winner = "GPT" ∧
    (play_poker_hand evalHandAlways0 (some (engineReportStd 1000 1000))
        initialGameState).gpt_streak = 1 := by
  have h := hand_winner_by_higher_stack evalHandAlways0 (engineReportStd 1000 1000)
    initialGameState (by decide) (by decide) (by decide) (by decide)
  exact ⟨h.1.trans (by decide), h.2.2.2.2.trans (by decide)⟩

/-! ## C2: bust paths and the match reset -/

/-- A state about to suffer a pre-hand bust (Claude's 5 chips cannot cover
the 10-chip big blind of hand 1) while both seats hold winning streaks. -/
def preBustState : GameState :=
  { initialGameState with claude_stack := 5, gpt_stack := 1995, claude_streak := 3, gpt_streak := 7 }

/-- A state whose next engine report (2000/0) busts GPT after the hand. -/
def postBustState : GameState :=
  { initialGameState with gpt_streak := 7 }

/-- C2 counterexample: on a pre-hand bust (stack below the big blind) the
match reset runs — stacks restored, hand-win counters cleared, the
new-game flag set — but both streak counters keep their old values (3 and
7) instead of being cleared. -/
theorem pre_hand_bust_keeps_streaks :
    (play_poker_hand evalHandAlways0 none preBustState).wait_for_new_game = true ∧
    (play_poker_hand evalHandAlways0 none preBustState).claude_stack = 1000 ∧
    (play_poker_hand evalHandAlways0 none preBustState).gpt_stack = 1000 ∧
    (play_poker_hand evalHandAlways0 none preBustState).gpt_games_won = 1 ∧
    (play_poker_hand evalHandAlways0 none preBustState).claude_wins = 0 ∧
    (play_poker_hand evalHandAlways0 none preBustState).claude_streak = 3 ∧
    (play_poker_hand evalHandAlways0 none preBustState).gpt_streak = 7 ∧
    (play_poker_hand evalHandAlways0 none preBustState).gpt_streak ≠ 0 := by
  refine ⟨by decide, by decide, by decide, by decide, by decide, by decide, by decide, by decide⟩

/-- C2 amended: on every bust path the opponent's game-win counter
increments, the match-length extremes update from the current-match hand
count prior to the reset, stacks are restored to 1000/1000, the per-match
counters (hand-win counts, hand history, stack history, biggest pot,
all-in count, pot list, current-match hand count) are cleared and the
new-game flag is set — but the streak counters are cleared only on the
post-hand bust path; the two pre-hand bust paths leave both streaks
unchanged. -/
theorem bust_paths_reset_amended :
    (∀ (ev : List String → List String → Except Unit Int)
      (engine : Option EngineResult) (s : GameState),
      s.claude_stack < (bigBlindAmt (s.hand_number + 1) : Int) →
      (play_poker_hand ev engine s).gpt_games_won = s.gpt_games_won + 1 ∧
      (play_poker_hand ev engine s).claude_games_won = s.claude_games_won ∧
      (play_poker_hand ev engine s).longest_game =
        (if s.longest_game = 0 ∨ s.current_game_hands + 1 > s.longest_game then
          s.current_game_hands + 1 else s.longest_game) ∧
      (play_poker_hand ev engine s).shortest_game =
        (if s.shortest_game = 0 ∨ s.current_game_hands + 1 < s.shortest_game then
          s.current_game_hands + 1 else s.shortest_game) ∧
      (play_poker_hand ev engine s).claude_stack = 1000 ∧
      (play_poker_hand ev engine s).gpt_stack = 1000 ∧
      (play_poker_hand ev engine s).claude_wins = 0 ∧
      (play_poker_hand ev engine s).gpt_wins = 0 ∧
      (play_poker_hand ev engine s).hand_history = [] ∧
      (play_poker_hand ev engine s).stack_history = [] ∧
      (play_poker_hand ev engine s).biggest_pot = 0 ∧
      (play_poker_hand ev engine s).total_allins = 0 ∧
      (play_poker_hand ev engine s).game_pots = [] ∧
      (play_poker_hand ev engine s).current_game_hands = 0 ∧
      (play_poker_hand ev engine s).wait_for_new_game = true ∧
      (play_poker_hand ev engine s).claude_streak = s.claude_streak ∧
      (play_poker_hand ev engine s).gpt_streak = s.gpt_streak) ∧
    (∀ (ev : List String → List String → Except Unit Int)
      (engine : Option EngineResult) (s : GameState),
      ¬(s.claude_stack < (bigBlindAmt (s.hand_number + 1) : Int)) →
      s.gpt_stack < (bigBlindAmt (s.hand_number + 1) : Int) →
      (play_poker_hand ev engine s).claude_games_won = s.claude_games_won + 1 ∧
      (play_poker_hand ev engine s).gpt_games_won = s.gpt_games_won ∧
      (play_poker_hand ev engine s).longest_game =
        (if s.longest_game = 0 ∨ s.current_game_hands + 1 > s.longest_game then
          s.current_game_hands + 1 else s.longest_game) ∧
      (play_poker_hand ev engine s).shortest_game =
        (if s.shortest_game = 0 ∨ s.current_game_hands + 1 < s.shortest_game then
          s.current_game_hands + 1 else s.shortest_game) ∧
      (play_poker_hand ev engine s).claude_stack = 1000 ∧
      (play_poker_hand ev engine s).gpt_stack = 1000 ∧
      (play_poker_hand ev engine s).claude_wins = 0 ∧
      (play_poker_hand ev engine s).gpt_wins = 0 ∧
      (play_poker_hand ev engine s).hand_history = [] ∧
      (play_poker_hand ev engine s).stack_history = [] ∧
      (play_poker_hand ev engine s).biggest_pot = 0 ∧
      (play_poker_hand ev engine s).total_allins = 0 ∧
      (play_poker_hand ev engine s).game_pots = [] ∧
      (play_poker_hand ev engine s).current_game_hands = 0 ∧
      (play_poker_hand ev engine s).wait_for_new_game = true ∧
      (play_poker_hand ev engine s).claude_streak = s.claude_streak ∧
      (play_poker_hand ev engine s).gpt_streak = s.gpt_streak) ∧
    (∀ (ev : List String → List String → Except Unit Int)
      (r : EngineResult) (s : GameState),
      ¬(s.claude_stack < (bigBlindAmt (s.hand_number + 1) : Int)) →
      ¬(s.gpt_stack < (bigBlindAmt (s.hand_number + 1) : Int)) →
      (r.claudeFinal + (s.claude_stack - min s.claude_stack s.gpt_stack) ≤ 0 ∨
        r.gptFinal + (s.gpt_stack - min s.claude_stack s.gpt_stack) ≤ 0) →
      (play_poker_hand ev (some r) s).claude_games_won =
        (if r.claudeFinal + (s.claude_stack - min s.claude_stack s.gpt_stack) > 0 then
          s.claude_games_won + 1 else s.claude_games_won) ∧
      (play_poker_hand ev (some r) s).gpt_games_won =
        (if r.claudeFinal + (s.claude_stack - min s.claude_stack s.gpt_stack) > 0 then
          s.gpt_games_won else s.gpt_games_won + 1) ∧
      (play_poker_hand ev (some r) s).longest_game =
        (if s.longest_game = 0 ∨ s.current_game_hands + 1 > s.longest_game then
          s.current_game_hands + 1 else s.longest_game) ∧
      (play_poker_hand ev (some r) s).shortest_game =
        (if s.shortest_game = 0 ∨ s.current_game_hands + 1 < s.shortest_game then
          s.current_game_hands + 1 else s.shortest_game) ∧
      (play_poker_hand ev (some r) s).claude_stack = 1000 ∧
      (play_poker_hand ev (some r) s).gpt_stack = 1000 ∧
      (play_poker_hand ev (some r) s).claude_wins = 0 ∧
      (play_poker_hand ev (some r) s).gpt_wins = 0 ∧
      (play_poker_hand ev (some r) s).hand_history = [] ∧
      (play_poker_hand ev (some r) s).stack_history = [] ∧
      (play_poker_hand ev (some r) s).biggest_pot = 0 ∧
      (play_poker_hand ev (some r) s).total_allins = 0 ∧
      (play_poker_hand ev (some r) s).game_pots = [] ∧
      (play_poker_hand ev (some r) s).current_game_hands = 0 ∧
      (play_poker_hand ev (some r) s).wait_for_new_game = true ∧
      (play_poker_hand ev (some r) s).claude_streak = 0 ∧
      (play_poker_hand ev (some r) s).gpt_streak = 0) := by
  refine ⟨?_, ?_, ?_⟩
  · intro ev engine s h
    rw [play_preBustClaude ev engine s h]
    simp only [matchResetPreBust, gameLengthUpdate, handStartReset]
    split_ifs <;> (repeat' apply And.intro) <;> first | rfl | trivial | omega
  · intro ev engine s h1 h2
    rw [play_preBustGpt ev engine s h1 h2]
    simp only [matchResetPreBust, gameLengthUpdate, handStartReset]
    split_ifs <;> (repeat' apply And.intro) <;> first | rfl | trivial | omega
  · intro ev r s h1 h2 hbust
    rw [play_engineSome ev r s h1 h2]
    set W : GameState := recordHand
      (computeWinningHandDetail ev
        (potTrackers (engineRun r (handStartReset s))).claude_cards
        (potTrackers (engineRun r (handStartReset s))).gpt_cards
        (potTrackers (engineRun r (handStartReset s))).community_cards)
      (winnerUpdate (potTrackers (engineRun r (handStartReset s)))) with hW
    have hWc : W.claude_stack =
        r.claudeFinal + (s.claude_stack - min s.claude_stack s.gpt_stack) := by
      rw [hW, winnerUpdate_eq, potTrackers_eq]
      rfl
    have hWg : W.gpt_stack =
        r.gptFinal + (s.gpt_stack - min s.claude_stack s.gpt_stack) := by
      rw [hW, winnerUpdate_eq, potTrackers_eq]
      rfl
    have hWcgw : W.claude_games_won = s.claude_games_won := by
      rw [hW, winnerUpdate_eq, potTrackers_eq]
      rfl
    have hWggw : W.gpt_games_won = s.gpt_games_won := by
      rw [hW, winnerUpdate_eq, potTrackers_eq]
      rfl
    have hWcur : W.current_game_hands = s.current_game_hands + 1 := by
      rw [hW, winnerUpdate_eq, potTrackers_eq]
      rfl
    have hWlong : W.longest_game = s.longest_game := by
      rw [hW, winnerUpdate_eq, potTrackers_eq]
      rfl
    have hWshort : W.shortest_game = s.shortest_game := by
      rw [hW, winnerUpdate_eq, potTrackers_eq]
      rfl
    rw [postBustCheck_eq, hWc, hWg, hWcgw, hWggw]
    rw [if_pos hbust]
    by_cases hcpos :
      r.claudeFinal + (s.claude_stack - min s.claude_stack s.gpt_stack) > 0
    · rw [if_pos hcpos]
      simp only [gameLengthUpdate_eq]
      rw [hWcur, hWlong, hWshort]
      split_ifs <;> (repeat' apply And.intro) <;>
        first | rfl | trivial | omega
    · rw [if_neg hcpos]
      simp only [gameLengthUpdate_eq]
      rw [hWcur, hWlong, hWshort]
      split_ifs <;> (repeat' apply And.intro) <;>
        first | rfl | trivial | omega

/-- Witness for C2 (amended): a pre-hand bust preserving a streak of 7 and
a post-hand bust clearing both streaks. -/
theorem bust_paths_reset_amended_witness :
    (play_poker_hand evalHandAlways0 none preBustState).gpt_streak = 7 ∧
    (play_poker_hand evalHandAlways0 (some (engineReportStd 2000 0))
      postBustState).gpt_streak = 0 ∧
    (play_poker_hand evalHandAlways0 (some (engineReportStd 2000 0))
      postBustState).wait_for_new_game = true := by
  have hA := bust_paths_reset_amended.1 evalHandAlways0 none preBustState (by decide)
  have hC := bust_paths_reset_amended.2.2 evalHandAlways0 (engineReportStd 2000 0)
    postBustState (by decide) (by decide) (by decide)
  refine ⟨hA.2.2.2.2.2.2.2.2.2.2.2.2.2.2.2.2.trans (by decide),
    hC.2.2.2.2.2.2.2.2.2.2.2.2.2.2.2.2, hC.2.2.2.2.2.2.2.2.2.2.2.2.2.2.1⟩

/-! ## C10: match resets leave the global counters alone -/

/-- The blind schedule is monotone in the hand number (shared helper). -/
theorem smallBlindAmt_mono {m n : Nat} (h : m ≤ n) :
    smallBlindAmt m ≤ smallBlindAmt n := by
  have hdiv : m / 10 ≤ n / 10 := Nat.div_le_div_right h
  simp only [smallBlindAmt, blindLevel]
  omega

/-- A match deep into the blind schedule (hand 25 just played) about to
suffer a pre-hand bust. -/
def lateGameBustState : GameState :=
  { initialGameState with hand_number := 25, claude_stack := 5, gpt_stack := 1995, current_game_hands := 12, total_hands := 60 }

/-- C10: every bust path leaves `hand_number` and `total_hands` at their
incremented (never reset) values and adds exactly one game win across the
two cross-match counters; since the blind schedule reads the never-reset
`hand_number`, the next match starts at a blind level at least that of the
busted hand — concretely, after a bust at hand 26 the next hand's small
blind is 15, not 5. -/
theorem match_reset_frame_conditions :
    (∀ (ev : List String → List String → Except Unit Int)
      (engine : Option EngineResult) (s : GameState),
      s.claude_stack < (bigBlindAmt (s.hand_number + 1) : Int) →
      (play_poker_hand ev engine s).hand_number = s.hand_number + 1 ∧
      (play_poker_hand ev engine s).total_hands = s.total_hands + 1 ∧
      (play_poker_hand ev engine s).claude_games_won +
        (play_poker_hand ev engine s).gpt_games_won =
        s.claude_games_won + s.gpt_games_won + 1 ∧
      smallBlindAmt (s.hand_number + 1) ≤
        smallBlindAmt ((play_poker_hand ev engine s).hand_number + 1)) ∧
    (∀ (ev : List String → List String → Except Unit Int)
      (engine : Option EngineResult) (s : GameState),
      ¬(s.claude_stack < (bigBlindAmt (s.hand_number + 1) : Int)) →
      s.gpt_stack < (bigBlindAmt (s.hand_number + 1) : Int) →
      (play_poker_hand ev engine s).hand_number = s.hand_number + 1 ∧
      (play_poker_hand ev engine s).total_hands = s.total_hands + 1 ∧
      (play_poker_hand ev engine s).claude_games_won +
        (play_poker_hand ev engine s).gpt_games_won =
        s.claude_games_won + s.gpt_games_won + 1 ∧
      smallBlindAmt (s.hand_number + 1) ≤
        smallBlindAmt ((play_poker_hand ev engine s).hand_number + 1)) ∧
    (∀ (ev : List String → List String → Except Unit Int)
      (r : EngineResult) (s : GameState),
      ¬(s.claude_stack < (bigBlindAmt (s.hand_number + 1) : Int)) →
      ¬(s.gpt_stack < (bigBlindAmt (s.hand_number + 1) : Int)) →
      (r.claudeFinal + (s.claude_stack - min s.claude_stack s.gpt_stack) ≤ 0 ∨
        r.gptFinal + (s.gpt_stack - min s.claude_stack s.gpt_stack) ≤ 0) →
      (play_poker_hand ev (some r) s).hand_number = s.hand_number + 1 ∧
      (play_poker_hand ev (some r) s).total_hands = s.total_hands + 1 ∧
      (play_poker_hand ev (some r) s).claude_games_won +
        (play_poker_hand ev (some r) s).gpt_games_won =
        s.claude_games_won + s.gpt_games_won + 1 ∧
      smallBlindAmt (s.hand_number + 1) ≤
        smallBlindAmt ((play_poker_hand ev (some r) s).hand_number + 1)) ∧
    ((play_poker_hand evalHandAlways0 none lateGameBustState).hand_number = 26 ∧
      smallBlindAmt
        ((play_poker_hand evalHandAlways0 none lateGameBustState).hand_number + 1) = 15 ∧
      (play_poker_hand evalHandAlways0 none lateGameBustState).claude_stack = 1000) := by
  refine ⟨?_, ?_, ?_, by decide, by decide, by decide⟩
  · intro ev engine s h
    rw [play_preBustClaude ev engine s h]
    simp only [matchResetPreBust, gameLengthUpdate, handStartReset]
    split_ifs <;> (repeat' apply And.intro) <;>
      first | rfl | trivial | omega | (dsimp only; omega) |
        exact smallBlindAmt_mono (by first | omega | (dsimp only; omega))
  · intro ev engine s h1 h2
    rw [play_preBustGpt ev engine s h1 h2]
    simp only [matchResetPreBust, gameLengthUpdate, handStartReset]
    split_ifs <;> (repeat' apply And.intro) <;>
      first | rfl | trivial | omega | (dsimp only; omega) |
        exact smallBlindAmt_mono (by first | omega | (dsimp only; omega))
  · intro ev r s h1 h2 hbust
    rw [play_engineSome ev r s h1 h2]
    set W : GameState := recordHand
      (computeWinningHandDetail ev
        (potTrackers (engineRun r (handStartReset s))).claude_cards
        (potTrackers (engineRun r (handStartReset s))).gpt_cards
        (potTrackers (engineRun r (handStartReset s))).community_cards)
      (winnerUpdate (potTrackers (engineRun r (handStartReset s)))) with hW
    have hWc : W.claude_stack =
        r.claudeFinal + (s.claude_stack - min s.claude_stack s.gpt_stack) := by
      rw [hW, winnerUpdate_eq, potTrackers_eq]
      rfl
    have hWg : W.gpt_stack =
        r.gptFinal + (s.gpt_stack - min s.claude_stack s.gpt_stack) := by
      rw [hW, winnerUpdate_eq, potTrackers_eq]
      rfl
    have hWcgw : W.claude_games_won = s.claude_games_won := by
      rw [hW, winnerUpdate_eq, potTrackers_eq]
      rfl
    have hWggw : W.gpt_games_won = s.gpt_games_won := by
      rw [hW, winnerUpdate_eq, potTrackers_eq]
      rfl
    have hWhn : W.hand_number = s.hand_number + 1 := by
      rw [hW, winnerUpdate_eq, potTrackers_eq]
      rfl
    have hWth : W.total_hands = s.total_hands + 1 := by
      rw [hW, winnerUpdate_eq, potTrackers_eq]
      rfl
    rw [postBustCheck_eq, hWc, hWg, hWcgw, hWggw]
    rw [if_pos hbust]
    by_cases hcpos :
      r.claudeFinal + (s.claude_stack - min s.claude_stack s.gpt_stack) > 0
    · rw [if_pos hcpos]
      simp only [gameLengthUpdate_eq]
      dsimp only [matchResetPostBust]
      rw [hWhn, hWth]
      repeat' apply And.intro
      all_goals
        first | rfl | trivial | omega | (dsimp only; omega) |
          exact smallBlindAmt_mono (by first | omega | (dsimp only; omega))
    · rw [if_neg hcpos]
      simp only [gameLengthUpdate_eq]
      dsimp only [matchResetPostBust]
      rw [hWhn, hWth]
      repeat' apply And.intro
      all_goals
        first | rfl | trivial | omega | (dsimp only; omega) |
          exact smallBlindAmt_mono (by first | omega | (dsimp only; omega))

/-- Witness for C10 at the hand-26 pre-hand bust. -/
theorem match_reset_frame_conditions_witness :
    (play_poker_hand evalHandAlways0 none lateGameBustState).hand_number = 26 ∧
    (play_poker_hand evalHandAlways0 none lateGameBustState).total_hands = 61 := by
  have h := match_reset_frame_conditions.1 evalHandAlways0 none lateGameBustState
    (by decide)
  exact ⟨h.1.trans (by decide), h.2.1.trans (by decide)⟩

end PokerBattle
